import Mathlib

/-!
Verification of the rkpd daemon (GrapheneOS RemoteKeyProvisioning).

The first part embeds the actual Rust source of `src/lib.rs`: the service
structs `MyRegistration`, `MyRegistrar`, `MyRefresh` and their AIDL method
implementations.  These are literal translations: the Rust code is a stub
whose methods ignore their inputs and return fixed, zero-filled results.

The second part models, from the specification's words, the components of
the intended system that are absent from the source (Pool Manager, Fetch
Coordinator, Refresh Scheduler), in order to settle the claims that speak
about those components.
-/

/-- A byte, as in Rust `u8`.  All bytes produced by the stub are zero, so a
plain natural number is adequate. -/
abbrev Byte := Nat

/-- Status carried by a failing binder call (`binder::Status`).  The stub
never constructs one; the type only records that the AIDL methods are
fallible. -/
inductive BinderStatus where
  | exception (code : Int) : BinderStatus
deriving DecidableEq

/-- `binder::Result<T>`: either a value or a `BinderStatus`. -/
abbrev BinderResult (α : Type) := Except BinderStatus α

/-- AIDL parcelable `RemotelyProvisionedKey` with fields `keyBlob` and
`encodedCertChain`. -/
structure RemotelyProvisionedKey where
  keyBlob : List Byte
  encodedCertChain : List Byte
deriving DecidableEq

/-- The service struct `MyRegistration` from `src/lib.rs`.  It has no
fields: a registration session carries no state at all. -/
structure MyRegistration where
deriving DecidableEq

/-- The service struct `MyRegistrar` from `src/lib.rs` (fieldless). -/
structure MyRegistrar where
deriving DecidableEq

/-- The service struct `MyRefresh` from `src/lib.rs` (fieldless). -/
structure MyRefresh where
deriving DecidableEq

/-- `MyRegistration::getRemotelyProvisionedKey` from `src/lib.rs`:
logs the key id and returns
`Ok(RemotelyProvisionedKey { keyBlob: vec![0; 32], encodedCertChain: vec![0; 32] })`.
The `key_id` argument is only logged, never used. -/
def MyRegistration.getRemotelyProvisionedKey (_self : MyRegistration)
    (_key_id : Int) : BinderResult RemotelyProvisionedKey :=
  .ok { keyBlob := List.replicate 32 0, encodedCertChain := List.replicate 32 0 }

/-- `MyRegistration::upgradeKey` from `src/lib.rs`: logs the key id and
returns `Ok(vec![0; 32])`; both `key_id` and `_old_key_blob` are unused
(the latter is even named with a leading underscore in the source). -/
def MyRegistration.upgradeKey (_self : MyRegistration) (_key_id : Int)
    (_old_key_blob : List Byte) : BinderResult (List Byte) :=
  .ok (List.replicate 32 0)

/-- `MyRegistrar::getRegistration` from `src/lib.rs`: logs its arguments and
returns a fresh binder over `MyRegistration {}`.  Neither `irpc_name` nor
`is_rkp_only` flows into the constructed session object. -/
def MyRegistrar.getRegistration (_self : MyRegistrar) (_irpc_name : String)
    ( _is_rkp_only : Bool) : BinderResult MyRegistration :=
  .ok {}

/-- `MyRefresh::refreshData` from `src/lib.rs`: returns `Ok(0)`. -/
def MyRefresh.refreshData (_self : MyRefresh) : BinderResult Int :=
  .ok 0

/-- The fixed zero key every `getRemotelyProvisionedKey` call returns. -/
def zeroKey : RemotelyProvisionedKey :=
  { keyBlob := List.replicate 32 0, encodedCertChain := List.replicate 32 0 }

/-- Modelled from the spec: the state of a key in the Key Store
(`Unassigned`, `Assigned`, `Expired`, `Revoked`); the Key Store is absent
from the source. -/
inductive KeyState where
  | Unassigned | Assigned | Expired | Revoked
deriving DecidableEq

/-- Modelled from the spec: one remotely-provisioned credential of the
Key Store (§3 of the spec); the Key Store is absent from the source. -/
structure Key where
  component_name : String
  key_id : Nat
  key_blob : List Byte
  cert_chain : List Byte
  state : KeyState
  expiry_time : Nat
  assigned_caller : Option Nat
deriving DecidableEq

/-- Modelled from the spec: the Pool Manager error taxonomy
`PoolError::{Exhausted, Timeout, NotFound, StateMismatch}` (§7). -/
inductive PoolError where
  | Exhausted | Timeout | NotFound | StateMismatch
deriving DecidableEq

/-- Modelled from the spec: a key is eligible for assignment when it belongs
to the component, is `Unassigned`, and its `expiry_time` has not passed
(`expiry_time` is the absolute timestamp after which the key must not be
assigned, so it is assignable while `now ≤ expiry_time`). -/
def eligible (now : Nat) (c : String) (k : Key) : Bool :=
  decide (k.component_name = c) && decide (k.state = KeyState.Unassigned) &&
    decide (now ≤ k.expiry_time)

/-- Fold step selecting the candidate with the oldest `expiry_time`
(oldest-expiry-first selection of §4.3). -/
def pickOlder (acc : Option Key) (k : Key) : Option Key :=
  match acc with
  | none => some k
  | some m => some (if k.expiry_time < m.expiry_time then k else m)

/-- Modelled from the spec: Pool Manager key selection — among the eligible
keys of the component, pick the one with the oldest expiry (§4.3); the
Pool Manager is absent from the source. -/
def selectKey (store : List Key) (c : String) (now : Nat) : Option Key :=
  (store.filter (eligible now c)).foldl pickOlder none

/-- Modelled from the spec: the Key Store state transition performed by a
successful assignment — the selected key becomes `Assigned` with the
caller recorded atomically (§3 invariant). -/
def markAssigned (store : List Key) (k : Key) (caller : Nat) : List Key :=
  store.map (fun x =>
    if x.component_name = k.component_name ∧ x.key_id = k.key_id then
      { x with state := KeyState.Assigned, assigned_caller := some caller }
    else x)

/-- Modelled from the spec: Pool Manager `assign_key` (§4.3) — select an
`Unassigned`, non-expired key; if none exists, await replenishment (the
keys it contributed are the `replenished` argument) and retry selection
once; if still none, fail with `PoolError::Exhausted`.  The Pool Manager
is absent from the source. -/
def assign_key (store : List Key) (c : String) (now : Nat) (caller : Nat)
    (replenished : List Key) : Except PoolError (Key × List Key) :=
  match selectKey store c now with
  | some k =>
      .ok ({ k with state := KeyState.Assigned, assigned_caller := some caller },
           markAssigned store k caller)
  | none =>
      match selectKey (store ++ replenished) c now with
      | some k =>
          .ok ({ k with state := KeyState.Assigned, assigned_caller := some caller },
               markAssigned (store ++ replenished) k caller)
      | none => .error PoolError.Exhausted

/-- Modelled from the spec: the Fetch Coordinator state for one component —
whether a FetchTicket exists, how many Remote Provisioning Client calls
are in flight, and how many have ever been issued.  The Fetch Coordinator
is absent from the source. -/
structure FcState where
  ticket : Bool
  inflight : Nat
  invocations : Nat
deriving DecidableEq

/-- The Fetch Coordinator state before any replenishment activity. -/
def FcState.init : FcState := { ticket := false, inflight := 0, invocations := 0 }

/-- Modelled from the spec: the two atomic events of `ensure_replenished`
(§4.4) — a caller triggers replenishment (it attaches to an existing
ticket, or creates one and issues the network call), or the in-flight
fetch completes (waiters are signalled and the ticket is removed). -/
inductive FcEvent where
  | trigger | complete
deriving DecidableEq

/-- Modelled from the spec: one atomic step of the Fetch Coordinator.  The
ticket map is consulted and updated under a lock, so a trigger is a single
atomic check-and-act: if a ticket exists the caller only waits; otherwise
it creates the ticket and starts exactly one Remote Provisioning Client
call. -/
def fcStep (s : FcState) (e : FcEvent) : FcState :=
  match e with
  | .trigger =>
      if s.ticket then s
      else { ticket := true, inflight := s.inflight + 1,
             invocations := s.invocations + 1 }
  | .complete =>
      if s.ticket then { ticket := false, inflight := s.inflight - 1,
                         invocations := s.invocations }
      else s

/-- Run the Fetch Coordinator from the initial state through a list of
interleaved events. -/
def fcRun (es : List FcEvent) : FcState := es.foldl fcStep FcState.init

/-- Coordinator invariant: a ticket exists exactly while one fetch is in
flight. -/
def FcInv (s : FcState) : Prop :=
  (s.ticket = true → s.inflight = 1) ∧ (s.ticket = false → s.inflight = 0)

/-- Modelled from the spec: the distinct non-zero "degraded" status code
reported when a majority of components fail (§4.6).  The spec fixes only
that it is distinct from the per-component error counts; `-1` realises
that. -/
def degradedStatus : Int := -1

/-- Modelled from the spec: the status code computed by the Refresh
Scheduler sweep (§4.6, §6), from the per-component fetch outcomes of the
sweep (`true` = that component's fetch failed).  `0` means success, a
failure of a minority of components yields the error count, and a majority
failure yields the distinct degraded status; the sweep itself is absent
from the source. -/
def refreshStatus (outcomes : List Bool) : Int :=
  let failures := (outcomes.filter (fun b => b)).length
  if failures = 0 then 0
  else if outcomes.length < 2 * failures then degradedStatus
  else (failures : Int)

/-- The whole daemon's mutable service state, as the source defines it: the
registered service objects, none of which has any field. -/
structure DaemonState where
  registrar : MyRegistrar
  refresh : MyRefresh
deriving DecidableEq

/-- One RPC call arriving at the daemon, with its arguments. -/
inductive Call where
  | getRegistration (component_name : String) (rkp_only : Bool)
  | getKey (key_id : Int)
  | upgrade (key_id : Int) (old_key_blob : List Byte)
  | refreshData

/-- The response returned for one RPC call. -/
inductive CallResult where
  | registration : BinderResult MyRegistration → CallResult
  | key : BinderResult RemotelyProvisionedKey → CallResult
  | blob : BinderResult (List Byte) → CallResult
  | status : BinderResult Int → CallResult

/-- Dispatch one call against the daemon, as `src/lib.rs` implements it:
every method takes `&self` on a fieldless struct (session objects are all
`MyRegistration {}`), so the state component is returned as it came in. -/
def runCall (c : Call) (s : DaemonState) : CallResult × DaemonState :=
  match c with
  | .getRegistration n f => (.registration (s.registrar.getRegistration n f), s)
  | .getKey kid => (.key (MyRegistration.getRemotelyProvisionedKey {} kid), s)
  | .upgrade kid blob => (.blob (MyRegistration.upgradeKey {} kid blob), s)
  | .refreshData => (.status s.refresh.refreshData, s)

/-- Run a sequence of calls, threading the daemon state. -/
def runSeq (cs : List Call) (s : DaemonState) : DaemonState :=
  cs.foldl (fun st c => (runCall c st).2) s

/-- C8: for every `key_id`, the stub `getRemotelyProvisionedKey` returns
`Ok` (it never errors), and the returned key has `keyBlob` and
`encodedCertChain` both equal to 32 zero bytes. -/
theorem getRemotelyProvisionedKey_always_zero (kid : Int) :
    MyRegistration.getRemotelyProvisionedKey {} kid =
      .ok { keyBlob := List.replicate 32 0,
            encodedCertChain := List.replicate 32 0 } := rfl

/-- C9: for every `key_id` and every `old_key_blob`, the stub `upgradeKey`
returns `Ok` with 32 zero bytes, and the result is independent of both
arguments: any two calls return identical results. -/
theorem upgradeKey_constant (kid₁ kid₂ : Int) (b₁ b₂ : List Byte) :
    MyRegistration.upgradeKey {} kid₁ b₁ = .ok (List.replicate 32 0) ∧
    MyRegistration.upgradeKey {} kid₁ b₁ = MyRegistration.upgradeKey {} kid₂ b₂ :=
  ⟨rfl, rfl⟩

/-- C1 (counter-evidence): the code violates the claim that no two callers
are handed the same key blob.  Two distinct successful calls — here with
key ids 0 and 1 — both receive the identical zero-filled blob. -/
theorem getRemotelyProvisionedKey_duplicate_blob :
    MyRegistration.getRemotelyProvisionedKey {} 0 = .ok zeroKey ∧
    MyRegistration.getRemotelyProvisionedKey {} 1 = .ok zeroKey ∧
    zeroKey.keyBlob = zeroKey.keyBlob := ⟨rfl, rfl, rfl⟩

/-- C3 (counter-evidence): in the stub no key exists and no replenishment
is possible, yet key assignment never fails with `Exhausted`: the call at
key id 0 succeeds with the fabricated zero key instead of surfacing an
error at the RPC boundary. -/
theorem getRemotelyProvisionedKey_never_exhausted :
    MyRegistration.getRemotelyProvisionedKey {} 0 = .ok zeroKey := rfl

/-- C4 (counter-evidence): `upgradeKey` with an `old_key_blob` of `[1,2,3]`
— which matches no stored blob, since the stub stores none — succeeds with
32 zero bytes instead of failing with `NotFound`. -/
theorem upgradeKey_mismatch_succeeds :
    MyRegistration.upgradeKey {} 0 [1, 2, 3] = .ok (List.replicate 32 0) := rfl

/-- C7 (counter-evidence): `getRegistration` ignores both `component_name`
and `is_rkp_only`: any two calls return the very same fieldless session
object, and the sessions obtained for different components behave
identically on every subsequent operation, so no binding to the
`(component_name, is_rkp_only)` pair exists. -/
theorem getRegistration_ignores_arguments (n₁ n₂ : String) (f₁ f₂ : Bool)
    (kid : Int) (blob : List Byte) (r₁ r₂ : MyRegistration) :
    MyRegistrar.getRegistration {} n₁ f₁ = MyRegistrar.getRegistration {} n₂ f₂ ∧
    r₁.getRemotelyProvisionedKey kid = r₂.getRemotelyProvisionedKey kid ∧
    r₁.upgradeKey kid blob = r₂.upgradeKey kid blob :=
  ⟨rfl, rfl, rfl⟩

/-- Helper: an eligible key's expiry has not passed. -/
theorem eligible_expiry {now : Nat} {c : String} {k : Key}
    (h : eligible now c k = true) : now ≤ k.expiry_time := by
  simp only [eligible, Bool.and_eq_true, decide_eq_true_eq] at h
  exact h.2

/-- Helper: the oldest-expiry fold only ever produces its accumulator's
value or a member of the list. -/
theorem pickOlder_foldl_mem (l : List Key) (acc : Option Key) (k : Key)
    (h : l.foldl pickOlder acc = some k) : acc = some k ∨ k ∈ l := by
  induction l generalizing acc with
  | nil => exact Or.inl h
  | cons x xs ih =>
    rcases ih (pickOlder acc x) h with h' | h'
    · cases acc with
      | none =>
        simp only [pickOlder, Option.some.injEq] at h'
        exact Or.inr (h' ▸ List.mem_cons_self x xs)
      | some m =>
        simp only [pickOlder, Option.some.injEq] at h'
        by_cases hlt : x.expiry_time < m.expiry_time
        · rw [if_pos hlt] at h'
          exact Or.inr (h' ▸ List.mem_cons_self x xs)
        · rw [if_neg hlt] at h'
          exact Or.inl (congrArg some h')
    · exact Or.inr (List.mem_cons_of_mem x h')

/-- Helper: a key selected by `selectKey` is eligible. -/
theorem selectKey_eligible {store : List Key} {c : String} {now : Nat}
    {k : Key} (h : selectKey store c now = some k) : eligible now c k = true := by
  rcases pickOlder_foldl_mem _ none k h with h' | h'
  · exact absurd h' (by simp)
  · exact (List.mem_filter.mp h').2

/-- C5: a key whose `expiry_time` has passed is never returned by a
successful `assign_key`, however the Key Store is populated (expired keys
may still be present in `store`) and whatever replenishment contributed:
every returned key satisfies `now ≤ expiry_time`. -/
theorem assign_key_never_expired (store : List Key) (c : String)
    (now caller : Nat) (replenished : List Key) (k : Key) (store' : List Key)
    (h : assign_key store c now caller replenished = .ok (k, store')) :
    now ≤ k.expiry_time := by
  unfold assign_key at h
  split at h
  case _ k0 hsel =>
    simp only [Except.ok.injEq, Prod.mk.injEq] at h
    have hexp : now ≤ k0.expiry_time := eligible_expiry (selectKey_eligible hsel)
    rw [← h.1]
    exact hexp
  case _ =>
    split at h
    case _ k0 hsel =>
      simp only [Except.ok.injEq, Prod.mk.injEq] at h
      have hexp : now ≤ k0.expiry_time := eligible_expiry (selectKey_eligible hsel)
      rw [← h.1]
      exact hexp
    case _ => exact absurd h (by simp)

/-- Witness for C5: a store holding one expired key (expiry 5) and one
valid key (expiry 20); at time 10 `assign_key` returns the valid key. -/
theorem assign_key_never_expired_witness :
    (10 : Nat) ≤ (Key.mk "a" 1 [1] [2] KeyState.Assigned 20 (some 7)).expiry_time :=
  assign_key_never_expired
    [Key.mk "a" 2 [3] [4] KeyState.Unassigned 5 none,
     Key.mk "a" 1 [1] [2] KeyState.Unassigned 20 none]
    "a" 10 7 []
    (Key.mk "a" 1 [1] [2] KeyState.Assigned 20 (some 7))
    [Key.mk "a" 2 [3] [4] KeyState.Unassigned 5 none,
     Key.mk "a" 1 [1] [2] KeyState.Assigned 20 (some 7)]
    rfl

/-- Helper: the coordinator invariant is preserved by every atomic step. -/
theorem fcInv_step (s : FcState) (e : FcEvent) (h : FcInv s) :
    FcInv (fcStep s e) := by
  rcases h with ⟨ht, hf⟩
  cases e with
  | trigger =>
    cases hb : s.ticket with
    | true => simpa [fcStep, hb] using ⟨ht, hf⟩
    | false =>
      simp only [fcStep, hb, Bool.false_eq_true, if_false]
      exact ⟨fun _ => by simp [hf hb], fun hc => by simp at hc⟩
  | complete =>
    cases hb : s.ticket with
    | true =>
      simp only [fcStep, hb, if_true]
      exact ⟨fun hc => by simp at hc, fun _ => by simp [ht hb]⟩
    | false => simpa [fcStep, hb] using ⟨ht, hf⟩

/-- Helper: the coordinator invariant holds along any event fold. -/
theorem fcInv_foldl (es : List FcEvent) (s : FcState) (h : FcInv s) :
    FcInv (es.foldl fcStep s) := by
  induction es generalizing s with
  | nil => exact h
  | cons e es ih => exact ih (fcStep s e) (fcInv_step s e h)

/-- Helper: once a ticket exists, further triggers are pure waiting — they
change nothing. -/
theorem fcTriggers_noop (n : Nat) (s : FcState) (h : s.ticket = true) :
    (List.replicate n FcEvent.trigger).foldl fcStep s = s := by
  induction n with
  | zero => rfl
  | succ m ih =>
    rw [List.replicate_succ, List.foldl_cons]
    have hs : fcStep s FcEvent.trigger = s := by simp [fcStep, h]
    rw [hs]
    exact ih

/-- C2: single-flight deduplication of the Fetch Coordinator — along every
interleaving of triggers and completions, at most one Remote Provisioning
Client call is in flight, and any positive number of concurrent triggers
from the ticketless initial state issues exactly one invocation. -/
theorem ensure_replenished_single_flight :
    (∀ es : List FcEvent, (fcRun es).inflight ≤ 1) ∧
    (∀ n : Nat, 1 ≤ n →
      (fcRun (List.replicate n FcEvent.trigger)).invocations = 1) := by
  constructor
  · intro es
    have hinv : FcInv (fcRun es) :=
      fcInv_foldl es FcState.init (by constructor <;> simp [FcState.init])
    rcases hinv with ⟨ht, hf⟩
    cases hb : (fcRun es).ticket with
    | true => simp [ht hb]
    | false => simp [hf hb]
  · intro n hn
    obtain ⟨m, rfl⟩ := Nat.exists_eq_add_of_le hn
    rw [fcRun, List.replicate_add, List.foldl_append]
    have h1 : (List.replicate 1 FcEvent.trigger).foldl fcStep FcState.init =
        { ticket := true, inflight := 1, invocations := 1 } := rfl
    rw [h1, fcTriggers_noop m _ rfl]

/-- Witness for C2: three simultaneous triggers from the initial state
issue exactly one Remote Provisioning Client call. -/
theorem ensure_replenished_single_flight_witness :
    (fcRun (List.replicate 3 FcEvent.trigger)).invocations = 1 :=
  ensure_replenished_single_flight.2 3 (by norm_num)

/-- C6: the sweep status — `0` exactly when no component failed; a minority
of failures (in particular a single failure among several components)
yields the per-component error count, never a whole-sweep failure; a
majority of failures yields the distinct degraded status, which differs
from `0` and from every error count. -/
theorem refreshData_status_spec (outcomes : List Bool) :
    (refreshStatus outcomes = 0 ↔ (outcomes.filter (fun b => b)).length = 0) ∧
    (1 ≤ (outcomes.filter (fun b => b)).length →
      2 * (outcomes.filter (fun b => b)).length ≤ outcomes.length →
      refreshStatus outcomes = ((outcomes.filter (fun b => b)).length : Int)) ∧
    (outcomes.length < 2 * (outcomes.filter (fun b => b)).length →
      refreshStatus outcomes = degradedStatus) ∧
    degradedStatus ≠ 0 ∧ (∀ n : Nat, (n : Int) ≠ degradedStatus) := by
  refine ⟨?_, ?_, ?_, by simp [degradedStatus], fun n => by simp only [degradedStatus]; omega⟩
  · unfold refreshStatus
    dsimp only
    split
    · simp_all
    · split
      · simp_all [degradedStatus]
      · constructor
        · intro h0
          omega
        · intro hf
          simp_all
  · intro h1 h2
    unfold refreshStatus
    dsimp only
    split <;> first | rfl | omega
  · intro hmaj
    unfold refreshStatus
    dsimp only
    split <;> first | rfl | omega

/-- Witness for C6: with three components, one failure gives status 1 (the
sweep is not failed by it), two failures give the degraded status. -/
theorem refreshData_status_spec_witness :
    refreshStatus [true, false, false] = 1 ∧
    refreshStatus [true, true, false] = degradedStatus :=
  ⟨(refreshData_status_spec [true, false, false]).2.1 (by decide) (by decide),
   (refreshData_status_spec [true, true, false]).2.2.1 (by decide)⟩

/-- Helper: each service call returns the daemon state unchanged. -/
theorem runCall_state (c : Call) (s : DaemonState) : (runCall c s).2 = s := by
  cases c <;> rfl

/-- Helper: a call sequence leaves the daemon state unchanged. -/
theorem runSeq_state (cs : List Call) (s : DaemonState) : runSeq cs s = s := by
  induction cs generalizing s with
  | nil => rfl
  | cons c cs ih =>
    show runSeq cs (runCall c s).2 = s
    rw [runCall_state]
    exact ih s

/-- C10: the services expose no mutable state — every call sequence leaves
the daemon state exactly as it started, and the result of any call is
unaffected by whatever calls ran before it. -/
theorem services_stateless (cs : List Call) (s : DaemonState) (c : Call) :
    runSeq cs s = s ∧ (runCall c (runSeq cs s)).1 = (runCall c s).1 := by
  refine ⟨runSeq_state cs s, ?_⟩
  rw [runSeq_state]
